import Mathlib

/-!
Verification of the page-behavior controller in `src/js/main.js`.

The script is shallowly embedded: each JavaScript function that the claims
touch is translated into a Lean definition over explicit state.

* Dates are modelled by their components: `calculateYOE` works on epoch
  milliseconds (`Int`), `calculateCrunchrDuration` on calendar year and
  0-indexed month (`Int`), exactly the fields the JS code reads.
* JavaScript number arithmetic in `calculateYOE` is modelled exactly over
  `ℚ` (float rounding is not modelled).
* DOM node class lists are `List String`; `classList.add` / `remove` /
  `contains` become `addClass` / `removeClass` / list membership.
* Nullable DOM lookups are `Option`; dereferencing is `deref` in
  `Except String`, so a null dereference is an observable `.error`.
-/

namespace Main

/-! ### CONFIG (src/js/main.js lines 5-14) -/

def headerOffset : Int := 100

def scrollThreshold : Int := 50

/-- Year component of `crunchrStartDate = new Date(2022, 11, 1)`. -/
def crunchrStartYear : Int := 2022

/-- Month component (0-indexed, 11 = December) of `crunchrStartDate`. -/
def crunchrStartMonth : Int := 11

/-! ### calculateYOE (lines 54-66) -/

/-- Milliseconds in a 365.25-day year: `1000 * 60 * 60 * 24 * 365.25`. -/
def msPerYear : ℚ := 31557600000

/-- The `Math.floor(5 + additionalYears)` value computed by `calculateYOE`,
as a function of the epoch milliseconds of the milestone (`CONFIG.yoeStartDate`)
and of `new Date()` (`now`).  `additionalMs = now - fiveYearMilestone`;
`additionalYears = additionalMs / msPerYear`. -/
def yoeTotalYears (milestoneMs nowMs : Int) : Int :=
  ⌊(5 : ℚ) + ((nowMs - milestoneMs : Int) : ℚ) / msPerYear⌋

/-- Function `calculateYOE`: `return totalYears + "+"`. -/
def calculateYOE (milestoneMs nowMs : Int) : String :=
  toString (yoeTotalYears milestoneMs nowMs) ++ "+"

/-! ### calculateCrunchrDuration (lines 68-84) -/

/-- The borrow step: `if (months < 0) { years--; months += 12; }`. -/
def crunchrBorrow (years months : Int) : Int × Int :=
  if months < 0 then (years - 1, months + 12) else (years, months)

/-- Value of `years` after the borrow, where `now.getFullYear() = nowYear` and
`now.getMonth() = nowMonth` (0-indexed). -/
def crunchrYears (nowYear nowMonth : Int) : Int :=
  (crunchrBorrow (nowYear - crunchrStartYear) (nowMonth - crunchrStartMonth)).1

/-- Value of `months` after the borrow. -/
def crunchrMonths (nowYear nowMonth : Int) : Int :=
  (crunchrBorrow (nowYear - crunchrStartYear) (nowMonth - crunchrStartMonth)).2

/-- JS `Array.prototype.join(" ")` on a list of strings. -/
def joinSpace : List String → String
  | [] => ""
  | [s] => s
  | s :: rest => s ++ " " ++ joinSpace rest

/-- Function `calculateCrunchrDuration`:
`[yearStr, monthStr].filter(Boolean).join(" ")` where
`yearStr = years > 0 ? years + "yr" : ""` and
`monthStr = months > 0 ? months + "mo" : ""`. -/
def calculateCrunchrDuration (nowYear nowMonth : Int) : String :=
  let years := crunchrYears nowYear nowMonth
  let months := crunchrMonths nowYear nowMonth
  let yearStr := if years > 0 then toString years ++ "yr" else ""
  let monthStr := if months > 0 then toString months ++ "mo" else ""
  joinSpace (([yearStr, monthStr]).filter (fun s => s != ""))

/-! ### Navigation (lines 123-172)

`navLinks = document.querySelectorAll("nav a[href^='#']")` and
`sections = document.querySelectorAll("section[id]")` are modelled as lists;
a nav link carries its `href` attribute and whether its class list contains
`"active"`, a section carries its `id`, `offsetTop` and `offsetHeight`. -/

structure NavLink where
  href : String
  active : Bool
  deriving DecidableEq, Repr

structure PageSection where
  id : String
  offsetTop : Int
  offsetHeight : Int
  deriving DecidableEq, Repr

/-- Loop `navLinks.forEach((link)=> link.classList.remove("active"))`. -/
def clearActive (links : List NavLink) : List NavLink :=
  links.map fun l => { l with active := false }

/-- Clear every link, then `lastLink.classList.add("active")` on the last
link if one exists (`if (lastLink) ...`). -/
def activateLast : List NavLink → List NavLink
  | [] => []
  | [l] => [{ l with active := true }]
  | l :: l' :: ls => { l with active := false } :: activateLast (l' :: ls)

/-- The inner `navLinks.forEach` of the section loop: every link first has
`"active"` removed, then gets it back iff its `href` is `"#" + sectionId`. -/
def setActiveForSection (sectionId : String) (links : List NavLink) : List NavLink :=
  links.map fun l => { l with active := l.href == "#" ++ sectionId }

/-- Test `scrollPos >= sectionTop && scrollPos < sectionTop + sectionHeight`. -/
def sectionMatches (scrollPos : Int) (s : PageSection) : Bool :=
  scrollPos ≥ s.offsetTop && scrollPos < s.offsetTop + s.offsetHeight

/-- The `sections.forEach` loop: threads the link list and the `activeFound`
flag through the sections in order. -/
def navLoop (scrollPos : Int) (sections : List PageSection)
    (links : List NavLink) : List NavLink × Bool :=
  sections.foldl
    (fun acc s =>
      if sectionMatches scrollPos s then (setActiveForSection s.id acc.1, true) else acc)
    (links, false)

/-- Function `updateActiveNav` (lines 127-169) as a function of the scroll state
(`window.scrollY`, `window.innerHeight`, `document.body.offsetHeight`), the
sections and the current nav links; returns the updated nav links. -/
def updateActiveNav (scrollY innerHeight bodyOffsetHeight : Int)
    (sections : List PageSection) (links : List NavLink) : List NavLink :=
  let scrollPos := scrollY + headerOffset
  let bottomReached := innerHeight + scrollY ≥ bodyOffsetHeight - scrollThreshold
  if bottomReached then
    activateLast (clearActive links)
  else
    let aboveFirst : Bool :=
      match sections with
      | [] => false
      | first :: _ => decide (scrollPos < first.offsetTop)
    if aboveFirst then
      clearActive links
    else
      let res := navLoop scrollPos sections links
      if res.2 then res.1 else clearActive res.1

/-- The id of the last section whose vertical span contains `scrollPos`
(the loop overwrites earlier matches), computed from the tail first. -/
def lastMatch (scrollPos : Int) : List PageSection → Option String
  | [] => none
  | s :: rest =>
    match lastMatch scrollPos rest with
    | some i => some i
    | none => if sectionMatches scrollPos s then some s.id else none

/-- Number of links whose class list contains `"active"`. -/
def countActive (links : List NavLink) : Nat :=
  (links.filter fun l => l.active).length

/-! Helper lemmas: the outcome of `updateActiveNav` depends only on the
`href` attributes of the nav links, never on their previous `active` flags. -/

/-- The `href` attributes of the nav links, in order. -/
def navHrefs (links : List NavLink) : List String :=
  links.map NavLink.href

/-- Composition `activateLast ∘ clearActive` as a function of the hrefs alone. -/
def activateLastOfHrefs : List String → List NavLink
  | [] => []
  | [h] => [⟨h, true⟩]
  | h :: h' :: rest => ⟨h, false⟩ :: activateLastOfHrefs (h' :: rest)

/-- The active-flag pattern of a list whose last link alone is active. -/
def lastTrue : Nat → List Bool
  | 0 => []
  | 1 => [true]
  | n + 2 => false :: lastTrue (n + 1)

/-! ### classList operations

`classList.add` appends the token unless present, `classList.remove`
deletes it, `classList.toggle` flips it, `classList.contains` tests it. -/

def addClass (c : String) (cs : List String) : List String :=
  if c ∈ cs then cs else cs ++ [c]

def removeClass (c : String) (cs : List String) : List String :=
  cs.filter fun x => x != c

def toggleClass (c : String) (cs : List String) : List String :=
  if c ∈ cs then removeClass c cs else addClass c cs

/-! ### Intersection observer reveal (lines 103-121)

A revealed section is a class list.  An observer entry is a pair of its
`isIntersecting` flag and the index of its target section. -/

structure RevealSection where
  classes : List String
  deriving DecidableEq

/-- Replace the element at an index, leaving other positions unchanged. -/
def modifyAt (f : α → α) : Nat → List α → List α
  | _, [] => []
  | 0, x :: xs => f x :: xs
  | n + 1, x :: xs => x :: modifyAt f n xs

/-- One entry of the observer callback:
`if (entry.isIntersecting) entry.target.classList.add("visible")`. -/
def processEntry (secs : List RevealSection) (e : Bool × Nat) : List RevealSection :=
  if e.1 then
    modifyAt (fun s => { s with classes := addClass "visible" s.classes }) e.2 secs
  else secs

/-- The `IntersectionObserver` callback: `entries.forEach(...)`. -/
def observerCallback (entries : List (Bool × Nat)) (secs : List RevealSection) :
    List RevealSection :=
  entries.foldl processEntry secs

/-- Any sequence of observer callbacks, in order. -/
def runCallbacks (batches : List (List (Bool × Nat))) (secs : List RevealSection) :
    List RevealSection :=
  batches.foldl (fun s b => observerCallback b s) secs

/-- Lines 117-121: `observer.observe(section)` runs only for sections with
`!section.classList.contains("visible")`. -/
def observeTargets (secs : List RevealSection) : List RevealSection :=
  secs.filter fun s => !(s.classes.contains "visible")

/-! ### DOM lookups and easter-egg handlers (lines 86-101, 174-275)

Every `getElementById` / `querySelector` lookup is an `Option`;
`document.activeElement` is `Option` as well, since the DOM types it as a
nullable `Element?`.  Dereferencing goes through `deref`, so dereferencing
a null value is an observable `Except.error`. -/

structure Element where
  textContent : String := ""
  classes : List String := []
  deriving DecidableEq

/-- The fields of `document.activeElement` read by the keydown handler. -/
structure FocusedElement where
  tagName : String := "BODY"
  isContentEditable : Bool := false
  deriving DecidableEq

/-- Element `#work-terminal`; `hasCloseButton` records whether
`terminal?.querySelector(".terminal-control.close")` finds a node. -/
structure TerminalEl where
  classes : List String := []
  hasCloseButton : Bool := false
  deriving DecidableEq

structure Dom where
  yoe : Option Element := none
  crunchrDuration : Option Element := none
  year : Option Element := none
  workTerminal : Option TerminalEl := none
  footerOrigin : Option Element := none
  logo : Option Element := none
  cornerLogo : Option Element := none
  scrollHint : Option Element := none
  activeElement : Option FocusedElement := none
  deriving DecidableEq

/-- Dereference a nullable DOM value; `none` raises a TypeError. -/
def deref : Option α → Except String α
  | some x => Except.ok x
  | none => Except.error "TypeError: cannot read properties of null"

def isOkB : Except String α → Bool
  | Except.ok _ => true
  | Except.error _ => false

/-- Lines 87-101: the three `if (element) element.textContent = ...`
blocks for `#yoe`, `#crunchr-duration` and `#year`. -/
def initDynamicContent (d : Dom) (milestoneMs nowMs nowYear nowMonth fullYear : Int) :
    Except String Dom := do
  let d1 ←
    if d.yoe.isSome then do
      let e ← deref d.yoe
      pure { d with yoe := some { e with textContent := calculateYOE milestoneMs nowMs } }
    else pure d
  let d2 ←
    if d1.crunchrDuration.isSome then do
      let e ← deref d1.crunchrDuration
      let e2 : Element := { e with textContent := calculateCrunchrDuration nowYear nowMonth }
      pure { d1 with crunchrDuration := some e2 }
    else pure d1
  if d2.year.isSome then do
    let e ← deref d2.year
    pure { d2 with year := some { e with textContent := toString fullYear } }
  else pure d2

/-- Whether `closeButton = terminal?.querySelector(".terminal-control.close")`
is non-null. -/
def closeButtonPresent (d : Dom) : Bool :=
  match d.workTerminal with
  | some t => t.hasCloseButton
  | none => false

/-- Lines 180-185: the close-button click handler (registered only when the
button exists) does `terminal.classList.add("hidden")`. -/
def terminalCloseClick (d : Dom) : Except String Dom :=
  if closeButtonPresent d then do
    let t ← deref d.workTerminal
    pure { d with workTerminal := some { t with classes := addClass "hidden" t.classes } }
  else pure d

/-- Lines 188-201: `this.classList.toggle("expanded")` (the deferred smooth
scroll changes no class list and is not modelled). -/
def footerOriginClick (d : Dom) : Except String Dom :=
  if d.footerOrigin.isSome then do
    let e ← deref d.footerOrigin
    pure { d with footerOrigin := some { e with classes := toggleClass "expanded" e.classes } }
  else pure d

/-- Lines 266-275: the scroll-hint scroll handler;
`if (hint && window.scrollY > CONFIG.scrollThreshold)` add `"hidden"`. -/
def scrollHintScroll (d : Dom) (scrollY : Int) : Except String Dom :=
  match d.scrollHint with
  | some hint =>
    if scrollY > scrollThreshold then
      pure { d with scrollHint := some { hint with classes := addClass "hidden" hint.classes } }
    else pure d
  | none => pure d

/-- JS `key.toLowerCase()` (character-wise lowering, as applied to the
single-character `e.key` values the handler compares). -/
def toLowerStr (s : String) : String :=
  ⟨s.data.map Char.toLower⟩

/-- Lines 224-236: the keydown handler, registered only when `.corner-logo`
exists.  The `&&` chain short-circuits, so `document.activeElement` is
dereferenced (without a null check) exactly when the key is `v`/`V` with
neither meta nor ctrl held. -/
def keydownHandler (d : Dom) (key : String) (metaKey ctrlKey : Bool) :
    Except String Dom :=
  match d.cornerLogo with
  | none => pure d
  | some logo =>
    if toLowerStr key == "v" && !metaKey && !ctrlKey then do
      let ae ← deref d.activeElement
      if ae.tagName != "INPUT" && ae.tagName != "TEXTAREA" && !ae.isContentEditable then
        pure { d with cornerLogo := some { logo with classes := addClass "pressed" logo.classes } }
      else pure d
    else pure d

/-- Lines 238-242: the keyup handler removes `"pressed"` when the key is
`v`/`V`. -/
def keyupHandler (d : Dom) (key : String) : Except String Dom :=
  match d.cornerLogo with
  | none => pure d
  | some logo =>
    if toLowerStr key == "v" then
      pure { d with cornerLogo := some { logo with classes := removeClass "pressed" logo.classes } }
    else pure d

/-- Whether the corner logo carries the `"pressed"` class after a handler
ran: `none` when the handler faulted or the logo is absent. -/
def cornerPressed (r : Except String Dom) : Option Bool :=
  match r with
  | Except.ok d => d.cornerLogo.map fun l => l.classes.contains "pressed"
  | Except.error _ => none

/-! ### Theorems -/

/-- The value `Math.floor(5 + additionalMs / msPerYear)` equals `5` plus the integer
(floor) division of the elapsed milliseconds by `31557600000`. -/
theorem yoeTotalYears_eq (milestoneMs nowMs : Int) :
    yoeTotalYears milestoneMs nowMs = 5 + (nowMs - milestoneMs) / 31557600000 := by
  unfold yoeTotalYears msPerYear
  rw [show (5 : ℚ) = ((5 : ℤ) : ℚ) by norm_num, Int.floor_int_add]
  congr 1
  rw [show (31557600000 : ℚ) = ((31557600000 : ℕ) : ℚ) by norm_num,
    Rat.floor_intCast_div_natCast]
  norm_num

theorem setActiveForSection_setActiveForSection (i j : String) (links : List NavLink) :
    setActiveForSection i (setActiveForSection j links) = setActiveForSection i links := by
  unfold setActiveForSection
  rw [List.map_map]
  rfl

theorem navLoop_foldl (scrollPos : Int) (sections : List PageSection)
    (acc : List NavLink × Bool) :
    sections.foldl
        (fun acc s =>
          if sectionMatches scrollPos s then (setActiveForSection s.id acc.1, true) else acc)
        acc =
      match lastMatch scrollPos sections with
      | none => acc
      | some i => (setActiveForSection i acc.1, true) := by
  induction sections generalizing acc with
  | nil => simp [lastMatch]
  | cons s rest ih =>
    simp only [List.foldl_cons]
    rw [ih]
    cases hr : lastMatch scrollPos rest with
    | none =>
      simp only [lastMatch, hr]
      by_cases h : sectionMatches scrollPos s = true
      · simp [h]
      · simp [h]
    | some i =>
      simp only [lastMatch, hr]
      by_cases h : sectionMatches scrollPos s = true
      · simp [h, setActiveForSection_setActiveForSection]
      · simp [h]

theorem navLoop_eq (scrollPos : Int) (sections : List PageSection) (links : List NavLink) :
    navLoop scrollPos sections links =
      match lastMatch scrollPos sections with
      | none => (links, false)
      | some i => (setActiveForSection i links, true) := by
  unfold navLoop
  exact navLoop_foldl scrollPos sections (links, false)

/-- Case analysis of `updateActiveNav`: bottom-of-page wins, then the
above-first-section early return, then the id of the last matching section
(or a full clear when no section matches). -/
theorem updateActiveNav_eq (scrollY innerHeight bodyOffsetHeight : Int)
    (sections : List PageSection) (links : List NavLink) :
    updateActiveNav scrollY innerHeight bodyOffsetHeight sections links =
      if innerHeight + scrollY ≥ bodyOffsetHeight - scrollThreshold then
        activateLast (clearActive links)
      else if (match sections with
          | [] => false
          | first :: _ => decide (scrollY + headerOffset < first.offsetTop)) = true then
        clearActive links
      else
        match lastMatch (scrollY + headerOffset) sections with
        | some i => setActiveForSection i links
        | none => clearActive links := by
  simp only [updateActiveNav, navLoop_eq]
  by_cases hb : innerHeight + scrollY ≥ bodyOffsetHeight - scrollThreshold
  · simp [hb]
  · simp only [if_neg hb]
    by_cases ha : (match sections with
        | [] => false
        | first :: _ => decide (scrollY + headerOffset < first.offsetTop)) = true
    · simp [ha]
    · simp only [Bool.not_eq_true] at ha
      simp only [ha, Bool.false_eq_true, if_false]
      cases lastMatch (scrollY + headerOffset) sections with
      | none => rfl
      | some i => rfl

theorem countActive_clearActive (links : List NavLink) :
    countActive (clearActive links) = 0 := by
  induction links with
  | nil => rfl
  | cons l rest ih =>
    simp only [countActive, clearActive, List.map_cons, List.filter_cons_of_neg,
      Bool.false_eq_true, not_false_eq_true]
    exact ih

theorem countActive_activateLast (links : List NavLink) :
    countActive (activateLast links) ≤ 1 := by
  induction links with
  | nil => exact Nat.zero_le 1
  | cons l rest ih =>
    cases rest with
    | nil => simp [countActive, activateLast]
    | cons l' rest' =>
      simpa [countActive, activateLast] using ih

theorem countActive_setActiveForSection (i : String) (links : List NavLink) :
    countActive (setActiveForSection i links) =
      (links.map NavLink.href).count ("#" ++ i) := by
  induction links with
  | nil => rfl
  | cons l rest ih =>
    by_cases h : l.href = "#" ++ i
    · simp [countActive, setActiveForSection, List.count_cons, h] at ih ⊢
      omega
    · simp [countActive, setActiveForSection, List.count_cons, h] at ih ⊢
      exact ih

theorem clearActive_eq_ofHrefs (links : List NavLink) :
    clearActive links = (navHrefs links).map fun h => ⟨h, false⟩ := by
  rw [navHrefs, List.map_map]
  rfl

theorem setActiveForSection_eq_ofHrefs (i : String) (links : List NavLink) :
    setActiveForSection i links =
      (navHrefs links).map fun h => ⟨h, h == "#" ++ i⟩ := by
  rw [navHrefs, List.map_map]
  rfl

theorem activateLast_clearActive_eq_ofHrefs (links : List NavLink) :
    activateLast (clearActive links) = activateLastOfHrefs (navHrefs links) := by
  induction links with
  | nil => rfl
  | cons l rest ih =>
    cases rest with
    | nil => rfl
    | cons l' rest' =>
      simp only [clearActive, List.map_cons, activateLast, navHrefs, activateLastOfHrefs]
      simp only [clearActive, navHrefs, List.map_cons] at ih
      rw [ih]

theorem navHrefs_clearActive (links : List NavLink) :
    navHrefs (clearActive links) = navHrefs links := by
  simp [navHrefs, clearActive, List.map_map]

theorem navHrefs_setActiveForSection (i : String) (links : List NavLink) :
    navHrefs (setActiveForSection i links) = navHrefs links := by
  simp [navHrefs, setActiveForSection, List.map_map]

theorem navHrefs_activateLast (links : List NavLink) :
    navHrefs (activateLast links) = navHrefs links := by
  induction links with
  | nil => rfl
  | cons l rest ih =>
    cases rest with
    | nil => rfl
    | cons l' rest' =>
      simp only [activateLast, navHrefs, List.map_cons] at ih ⊢
      rw [ih]

/-- Function `updateActiveNav` preserves the hrefs of the nav links. -/
theorem navHrefs_updateActiveNav (scrollY innerHeight bodyOffsetHeight : Int)
    (sections : List PageSection) (links : List NavLink) :
    navHrefs (updateActiveNav scrollY innerHeight bodyOffsetHeight sections links) =
      navHrefs links := by
  rw [updateActiveNav_eq]
  by_cases hb : innerHeight + scrollY ≥ bodyOffsetHeight - scrollThreshold
  · rw [if_pos hb, ← navHrefs_clearActive links]
    exact navHrefs_activateLast _
  · rw [if_neg hb]
    by_cases ha : (match sections with
        | [] => false
        | first :: _ => decide (scrollY + headerOffset < first.offsetTop)) = true
    · rw [if_pos ha]
      exact navHrefs_clearActive _
    · rw [if_neg ha]
      cases lastMatch (scrollY + headerOffset) sections with
      | none => exact navHrefs_clearActive _
      | some i => exact navHrefs_setActiveForSection _ _

/-- The result of `updateActiveNav` is a function of the hrefs only: two
link lists with the same hrefs give identical results. -/
theorem updateActiveNav_congr (scrollY innerHeight bodyOffsetHeight : Int)
    (sections : List PageSection) (links1 links2 : List NavLink)
    (h : navHrefs links1 = navHrefs links2) :
    updateActiveNav scrollY innerHeight bodyOffsetHeight sections links1 =
      updateActiveNav scrollY innerHeight bodyOffsetHeight sections links2 := by
  rw [updateActiveNav_eq, updateActiveNav_eq]
  by_cases hb : innerHeight + scrollY ≥ bodyOffsetHeight - scrollThreshold
  · rw [if_pos hb, if_pos hb, activateLast_clearActive_eq_ofHrefs,
      activateLast_clearActive_eq_ofHrefs, h]
  · rw [if_neg hb, if_neg hb]
    by_cases ha : (match sections with
        | [] => false
        | first :: _ => decide (scrollY + headerOffset < first.offsetTop)) = true
    · rw [if_pos ha, if_pos ha, clearActive_eq_ofHrefs, clearActive_eq_ofHrefs, h]
    · rw [if_neg ha, if_neg ha]
      cases lastMatch (scrollY + headerOffset) sections with
      | none =>
        show clearActive links1 = clearActive links2
        rw [clearActive_eq_ofHrefs, clearActive_eq_ofHrefs, h]
      | some i =>
        show setActiveForSection i links1 = setActiveForSection i links2
        rw [setActiveForSection_eq_ofHrefs, setActiveForSection_eq_ofHrefs, h]

theorem activateLast_clearActive_pattern (links : List NavLink) :
    (activateLast (clearActive links)).map NavLink.active = lastTrue links.length := by
  induction links with
  | nil => rfl
  | cons l rest ih =>
    cases rest with
    | nil => rfl
    | cons l' rest' =>
      simp only [clearActive, List.map_cons, activateLast, List.length_cons, lastTrue]
      simp only [clearActive, List.map_cons, List.length_cons] at ih
      rw [ih]

/-- A string with a non-empty suffix appended is non-empty. -/
theorem append_ne_empty (s t : String) (h : 0 < t.length) : ¬s ++ t = "" := by
  intro hc
  have hl : s.length + t.length = ("" : String).length := by
    rw [← String.length_append, hc]
  rw [show ("" : String).length = 0 from rfl] at hl
  omega

theorem append_bne_empty (s t : String) (h : 0 < t.length) : (s ++ t != "") = true := by
  simp only [bne_iff_ne, ne_eq]
  exact append_ne_empty s t h

/-- C2: for every current date on or after the milestone, `calculateYOE`
returns `floor(5 + years_since_milestone) + "+"` (the floor equals `5` plus
the floor division of the elapsed milliseconds by the 365.25-day year), the
rendered year count never decreases as the current date grows, and at the
milestone itself the result is `"5+"`. -/
theorem calculateYOE_spec (milestoneMs now1 now2 : Int)
    (_h1 : milestoneMs ≤ now1) (h2 : now1 ≤ now2) :
    calculateYOE milestoneMs now1 = toString (yoeTotalYears milestoneMs now1) ++ "+"
    ∧ yoeTotalYears milestoneMs now1 = 5 + (now1 - milestoneMs) / 31557600000
    ∧ yoeTotalYears milestoneMs now1 ≤ yoeTotalYears milestoneMs now2
    ∧ calculateYOE milestoneMs milestoneMs = "5+" := by
  refine ⟨rfl, yoeTotalYears_eq _ _, ?_, ?_⟩
  · rw [yoeTotalYears_eq, yoeTotalYears_eq]
    have hdiv : (now1 - milestoneMs) / 31557600000 ≤ (now2 - milestoneMs) / 31557600000 :=
      Int.ediv_le_ediv (by norm_num) (by omega)
    omega
  · rw [calculateYOE, yoeTotalYears_eq, sub_self]
    decide

theorem calculateYOE_spec_witness :
    calculateYOE 0 31557600000 = toString (yoeTotalYears 0 31557600000) ++ "+"
    ∧ yoeTotalYears 0 31557600000 = 5 + (31557600000 - 0) / 31557600000
    ∧ yoeTotalYears 0 31557600000 ≤ yoeTotalYears 0 63115200000
    ∧ calculateYOE 0 0 = "5+" :=
  calculateYOE_spec 0 31557600000 63115200000 (by decide) (by decide)

/-- C3: for every current date on or after the tenure start (valid month,
at or past December 2022), the borrowed year/month components are
non-negative, the rendered string omits a component exactly when it is
zero and joins two non-empty components with exactly one space, and for
January 2023 the result is `"1mo"`. -/
theorem calculateCrunchrDuration_spec (nowYear nowMonth : Int)
    (h0 : 0 ≤ nowMonth) (h1 : nowMonth ≤ 11)
    (h2 : crunchrStartYear * 12 + crunchrStartMonth ≤ nowYear * 12 + nowMonth) :
    0 ≤ crunchrYears nowYear nowMonth
    ∧ 0 ≤ crunchrMonths nowYear nowMonth
    ∧ calculateCrunchrDuration nowYear nowMonth =
        (if 0 < crunchrYears nowYear nowMonth ∧ 0 < crunchrMonths nowYear nowMonth then
          toString (crunchrYears nowYear nowMonth) ++ "yr" ++ " "
            ++ (toString (crunchrMonths nowYear nowMonth) ++ "mo")
        else if 0 < crunchrYears nowYear nowMonth then
          toString (crunchrYears nowYear nowMonth) ++ "yr"
        else if 0 < crunchrMonths nowYear nowMonth then
          toString (crunchrMonths nowYear nowMonth) ++ "mo"
        else "")
    ∧ calculateCrunchrDuration 2023 0 = "1mo" := by
  have hy : 0 ≤ crunchrYears nowYear nowMonth := by
    unfold crunchrYears crunchrBorrow crunchrStartYear crunchrStartMonth at *
    split <;> simp <;> omega
  have hm : 0 ≤ crunchrMonths nowYear nowMonth := by
    unfold crunchrMonths crunchrBorrow crunchrStartYear crunchrStartMonth at *
    split <;> simp <;> omega
  refine ⟨hy, hm, ?_, by decide⟩
  unfold calculateCrunchrDuration
  by_cases hyp : 0 < crunchrYears nowYear nowMonth <;>
    by_cases hmp : 0 < crunchrMonths nowYear nowMonth <;>
    simp [hyp, hmp, joinSpace, List.filter_cons,
      append_bne_empty _ "yr" (by decide), append_bne_empty _ "mo" (by decide),
      String.append_assoc]

theorem calculateCrunchrDuration_spec_witness :
    0 ≤ crunchrYears 2023 0
    ∧ 0 ≤ crunchrMonths 2023 0
    ∧ calculateCrunchrDuration 2023 0 =
        (if 0 < crunchrYears 2023 0 ∧ 0 < crunchrMonths 2023 0 then
          toString (crunchrYears 2023 0) ++ "yr" ++ " " ++ (toString (crunchrMonths 2023 0) ++ "mo")
        else if 0 < crunchrYears 2023 0 then toString (crunchrYears 2023 0) ++ "yr"
        else if 0 < crunchrMonths 2023 0 then toString (crunchrMonths 2023 0) ++ "mo"
        else "")
    ∧ calculateCrunchrDuration 2023 0 = "1mo" :=
  calculateCrunchrDuration_spec 2023 0 (by decide) (by decide) (by decide)

/-- C9: when the current date is in the same calendar month and year as the
tenure start (December 2022), both components are zero and omitted, and
`calculateCrunchrDuration` returns the empty string. -/
theorem calculateCrunchrDuration_same_month :
    calculateCrunchrDuration crunchrStartYear crunchrStartMonth = ""
    ∧ crunchrYears crunchrStartYear crunchrStartMonth = 0
    ∧ crunchrMonths crunchrStartYear crunchrStartMonth = 0 := by
  refine ⟨by decide, by decide, by decide⟩

/-- C10: for any valid current month (0-11), the raw month difference lies
in [-11, 11] and the borrow step maps it into [0, 11], so a rendered month
component is never negative and never `"12mo"`. -/
theorem crunchrMonths_bounds (nowYear nowMonth : Int)
    (h0 : 0 ≤ nowMonth) (h1 : nowMonth ≤ 11) :
    -11 ≤ nowMonth - crunchrStartMonth
    ∧ nowMonth - crunchrStartMonth ≤ 11
    ∧ 0 ≤ crunchrMonths nowYear nowMonth
    ∧ crunchrMonths nowYear nowMonth ≤ 11 := by
  unfold crunchrMonths crunchrBorrow crunchrStartYear crunchrStartMonth
  split <;> simp <;> omega

theorem crunchrMonths_bounds_witness :
    -11 ≤ (0 : Int) - crunchrStartMonth
    ∧ (0 : Int) - crunchrStartMonth ≤ 11
    ∧ 0 ≤ crunchrMonths 2023 0
    ∧ crunchrMonths 2023 0 ≤ 11 :=
  crunchrMonths_bounds 2023 0 (by decide) (by decide)

/-- C1 (counterexample): the at-most-one-active invariant fails for a
configuration in which two nav links carry the same `href`.  With one
section `a` at offset 0 of height 200, scroll position 0 (not at the page
bottom, not above the section), and two links whose href is `"#a"`, the
inner loop marks both links active. -/
theorem updateActiveNav_atMostOne_cex :
    1 < countActive (updateActiveNav 0 10 10000
      [⟨"a", 0, 200⟩] [⟨"#a", false⟩, ⟨"#a", false⟩]) := by
  decide

/-- C1 (amended): after any run of `updateActiveNav`, at most one nav link
is active, provided no two nav links share the same `href` attribute (the
actual page: every configuration whose nav hrefs are pairwise distinct). -/
theorem updateActiveNav_atMostOne (scrollY innerHeight bodyOffsetHeight : Int)
    (sections : List PageSection) (links : List NavLink)
    (h : (navHrefs links).Nodup) :
    countActive (updateActiveNav scrollY innerHeight bodyOffsetHeight sections links) ≤ 1 := by
  rw [updateActiveNav_eq]
  by_cases hb : innerHeight + scrollY ≥ bodyOffsetHeight - scrollThreshold
  · rw [if_pos hb]
    exact countActive_activateLast _
  · rw [if_neg hb]
    by_cases ha : (match sections with
        | [] => false
        | first :: _ => decide (scrollY + headerOffset < first.offsetTop)) = true
    · rw [if_pos ha, countActive_clearActive]
      exact Nat.zero_le 1
    · rw [if_neg ha]
      cases lastMatch (scrollY + headerOffset) sections with
      | none =>
        show countActive (clearActive links) ≤ 1
        rw [countActive_clearActive]
        exact Nat.zero_le 1
      | some i =>
        show countActive (setActiveForSection i links) ≤ 1
        rw [countActive_setActiveForSection]
        exact List.nodup_iff_count_le_one.mp h ("#" ++ i)

theorem updateActiveNav_atMostOne_witness :
    countActive (updateActiveNav 0 10 10000
      [⟨"a", 0, 200⟩] [⟨"#a", false⟩, ⟨"#b", false⟩]) ≤ 1 :=
  updateActiveNav_atMostOne 0 10 10000
    [⟨"a", 0, 200⟩] [⟨"#a", false⟩, ⟨"#b", false⟩] (by decide)

/-- C4: whenever the viewport is within `scrollThreshold` of the document
bottom, `updateActiveNav` clears every link and activates exactly the last
one, regardless of the sections (so it takes priority over any section
match and over the above-first-section case). -/
theorem updateActiveNav_bottom (scrollY innerHeight bodyOffsetHeight : Int)
    (sections : List PageSection) (links : List NavLink)
    (h : innerHeight + scrollY ≥ bodyOffsetHeight - scrollThreshold) :
    updateActiveNav scrollY innerHeight bodyOffsetHeight sections links =
      activateLast (clearActive links)
    ∧ (updateActiveNav scrollY innerHeight bodyOffsetHeight sections links).map
        NavLink.active = lastTrue links.length := by
  have he : updateActiveNav scrollY innerHeight bodyOffsetHeight sections links =
      activateLast (clearActive links) := by
    rw [updateActiveNav_eq, if_pos h]
  exact ⟨he, by rw [he]; exact activateLast_clearActive_pattern links⟩

theorem updateActiveNav_bottom_witness :
    updateActiveNav 9970 30 10000 [⟨"a", 0, 200⟩]
        [⟨"#a", true⟩, ⟨"#b", false⟩] =
      activateLast (clearActive [⟨"#a", true⟩, ⟨"#b", false⟩])
    ∧ (updateActiveNav 9970 30 10000 [⟨"a", 0, 200⟩]
        [⟨"#a", true⟩, ⟨"#b", false⟩]).map NavLink.active =
      lastTrue ([(⟨"#a", true⟩ : NavLink), ⟨"#b", false⟩] : List NavLink).length :=
  updateActiveNav_bottom 9970 30 10000 [⟨"a", 0, 200⟩]
    [⟨"#a", true⟩, ⟨"#b", false⟩] (by decide)

/-- C8: the function `updateActiveNav` is history-independent and idempotent: for a fixed
scroll state and section layout its result does not depend on which links
were active before (only on their hrefs), and running it twice equals
running it once. -/
theorem updateActiveNav_idempotent (scrollY innerHeight bodyOffsetHeight : Int)
    (sections : List PageSection) (links1 links2 : List NavLink)
    (h : navHrefs links1 = navHrefs links2) :
    updateActiveNav scrollY innerHeight bodyOffsetHeight sections links1 =
      updateActiveNav scrollY innerHeight bodyOffsetHeight sections links2
    ∧ updateActiveNav scrollY innerHeight bodyOffsetHeight sections
        (updateActiveNav scrollY innerHeight bodyOffsetHeight sections links1) =
      updateActiveNav scrollY innerHeight bodyOffsetHeight sections links1 := by
  constructor
  · exact updateActiveNav_congr _ _ _ _ _ _ h
  · exact updateActiveNav_congr _ _ _ _ _ _
      (navHrefs_updateActiveNav scrollY innerHeight bodyOffsetHeight sections links1)

theorem mem_addClass (c c' : String) (cs : List String) (h : c' ∈ cs) :
    c' ∈ addClass c cs := by
  unfold addClass
  split
  · exact h
  · exact List.mem_append_left _ h

theorem mem_addClass_self (c : String) (cs : List String) : c ∈ addClass c cs := by
  unfold addClass
  split
  · assumption
  · exact List.mem_append_right _ (List.mem_singleton.mpr rfl)

theorem not_mem_removeClass (c : String) (cs : List String) : c ∉ removeClass c cs := by
  unfold removeClass
  intro h
  have := List.of_mem_filter h
  simp at this

theorem modifyAt_get? (f : α → α) (n i : Nat) (l : List α) :
    (modifyAt f n l).get? i = if i = n then (l.get? i).map f else l.get? i := by
  induction l generalizing n i with
  | nil => simp [modifyAt]
  | cons x xs ih =>
    cases n with
    | zero =>
      cases i with
      | zero => simp [modifyAt]
      | succ j => simp [modifyAt]
    | succ m =>
      cases i with
      | zero => simp [modifyAt]
      | succ j =>
        simp only [modifyAt, List.get?_cons_succ, ih, Nat.succ_eq_add_one]
        by_cases hij : j = m <;> simp [hij]

theorem processEntry_mono (secs : List RevealSection) (e : Bool × Nat) (i : Nat)
    (s : RevealSection) (hget : secs.get? i = some s) (hvis : "visible" ∈ s.classes) :
    ∃ s', (processEntry secs e).get? i = some s' ∧ "visible" ∈ s'.classes := by
  unfold processEntry
  split
  · rw [modifyAt_get?]
    by_cases hie : i = e.2
    · refine ⟨_, by rw [if_pos hie, hget]; rfl, ?_⟩
      exact mem_addClass _ _ _ hvis
    · exact ⟨s, by rw [if_neg hie, hget], hvis⟩
  · exact ⟨s, hget, hvis⟩

theorem observerCallback_mono (entries : List (Bool × Nat)) (secs : List RevealSection)
    (i : Nat) (s : RevealSection) (hget : secs.get? i = some s)
    (hvis : "visible" ∈ s.classes) :
    ∃ s', (observerCallback entries secs).get? i = some s' ∧ "visible" ∈ s'.classes := by
  induction entries generalizing secs s with
  | nil => exact ⟨s, hget, hvis⟩
  | cons e rest ih =>
    obtain ⟨s', hget', hvis'⟩ := processEntry_mono secs e i s hget hvis
    exact ih (processEntry secs e) s' hget' hvis'

theorem runCallbacks_mono (batches : List (List (Bool × Nat))) (secs : List RevealSection)
    (i : Nat) (s : RevealSection) (hget : secs.get? i = some s)
    (hvis : "visible" ∈ s.classes) :
    ∃ s', (runCallbacks batches secs).get? i = some s' ∧ "visible" ∈ s'.classes := by
  induction batches generalizing secs s with
  | nil => exact ⟨s, hget, hvis⟩
  | cons b rest ih =>
    obtain ⟨s', hget', hvis'⟩ := observerCallback_mono b secs i s hget hvis
    exact ih (observerCallback b secs) s' hget' hvis'

/-- C5: section visibility is monotone — once a section's class list
contains `"visible"`, it still does after any sequence of observer
callbacks (the callback only ever adds the class) — and a section is an
observation target at initialization iff it belongs to the section list
and is not already visible. -/
theorem reveal_monotone (batches : List (List (Bool × Nat))) (secs : List RevealSection)
    (i : Nat) (s : RevealSection) (hget : secs.get? i = some s)
    (hvis : "visible" ∈ s.classes) :
    (∃ s', (runCallbacks batches secs).get? i = some s' ∧ "visible" ∈ s'.classes)
    ∧ ∀ t : RevealSection,
        t ∈ observeTargets secs ↔ t ∈ secs ∧ "visible" ∉ t.classes := by
  refine ⟨runCallbacks_mono batches secs i s hget hvis, fun t => ?_⟩
  unfold observeTargets
  rw [List.mem_filter]
  simp

theorem reveal_monotone_witness :
    (∃ s', (runCallbacks [[(true, 0)], [(false, 0)]]
        [⟨["visible"]⟩, ⟨[]⟩]).get? 0 = some s' ∧ "visible" ∈ s'.classes)
    ∧ ∀ t : RevealSection,
        t ∈ observeTargets [⟨["visible"]⟩, ⟨[]⟩] ↔
          t ∈ ([⟨["visible"]⟩, ⟨[]⟩] : List RevealSection) ∧ "visible" ∉ t.classes :=
  reveal_monotone [[(true, 0)], [(false, 0)]] [⟨["visible"]⟩, ⟨[]⟩] 0
    ⟨["visible"]⟩ (by decide) (by decide)

theorem except_ok_bind {α β : Type} (a : α) (f : α → Except String β) :
    (Except.ok a : Except String α) >>= f = f a := rfl

theorem isOkB_ok (a : α) : isOkB (Except.ok a) = true := rfl

theorem isOkB_error (e : String) : isOkB (Except.error e : Except String α) = false := rfl

/-- C6 (counterexample): not every DOM value read by the script is
null-checked before dereferencing.  The keydown handler reads
`document.activeElement.tagName` without a check: with the corner logo
present, `activeElement` null, and a plain `v` keydown, the handler
dereferences null. -/
theorem keydownHandler_null_cex :
    keydownHandler { cornerLogo := some {}, activeElement := none } "v" false false
      = Except.error "TypeError: cannot read properties of null" := by
  rfl

/-- C6 (amended): every lookup of the optional page elements (`#yoe`,
`#crunchr-duration`, `#year`, `#work-terminal`, `.footer-origin`,
`.corner-logo`, `.scroll-hint`, and the nav links handled by the total
`updateActiveNav`) is null-checked, so each initialization step and
handler runs without a null dereference for every combination of
present/absent elements; the one exception is `document.activeElement`,
which the keydown handler dereferences unchecked, so its safety needs the
hypothesis that `activeElement` is non-null. -/
theorem dom_null_checks (d : Dom)
    (milestoneMs nowMs nowYear nowMonth fullYear scrollY : Int)
    (key : String) (metaKey ctrlKey : Bool)
    (hae : d.activeElement.isSome = true) :
    isOkB (initDynamicContent d milestoneMs nowMs nowYear nowMonth fullYear) = true
    ∧ isOkB (terminalCloseClick d) = true
    ∧ isOkB (footerOriginClick d) = true
    ∧ isOkB (scrollHintScroll d scrollY) = true
    ∧ isOkB (keydownHandler d key metaKey ctrlKey) = true
    ∧ isOkB (keyupHandler d key) = true := by
  obtain ⟨yoeE, cdE, yrE, wtE, foE, lgE, clE, shE, aeE⟩ := d
  simp only [Dom.activeElement] at hae
  cases aeE with
  | none => simp at hae
  | some ae =>
    refine ⟨?_, ?_, ?_, ?_, ?_, ?_⟩
    · cases yoeE <;> cases cdE <;> cases yrE <;> rfl
    · cases wtE with
      | none => rfl
      | some t =>
        obtain ⟨tcs, hcb⟩ := t
        cases hcb <;> rfl
    · cases foE <;> rfl
    · cases shE with
      | none => rfl
      | some hint =>
        by_cases hs : scrollY > scrollThreshold <;>
          simp [scrollHintScroll, hs, isOkB, pure, Except.pure]
    · cases clE with
      | none => rfl
      | some logo =>
        by_cases h1 : (toLowerStr key == "v" && !metaKey && !ctrlKey) = true <;>
          simp [keydownHandler, deref, h1, pure, Except.pure,
            except_ok_bind, apply_ite isOkB, isOkB_ok, ite_self]
    · cases clE with
      | none => rfl
      | some logo =>
        by_cases h1 : (toLowerStr key == "v") = true <;>
          simp [keyupHandler, h1, isOkB, pure, Except.pure]

theorem dom_null_checks_witness :
    isOkB (initDynamicContent { activeElement := some {} } 0 0 2023 0 2023) = true
    ∧ isOkB (terminalCloseClick { activeElement := some {} }) = true
    ∧ isOkB (footerOriginClick { activeElement := some {} }) = true
    ∧ isOkB (scrollHintScroll { activeElement := some {} } 0) = true
    ∧ isOkB (keydownHandler { activeElement := some {} } "v" false false) = true
    ∧ isOkB (keyupHandler { activeElement := some {} } "v") = true :=
  dom_null_checks { activeElement := some {} } 0 0 2023 0 2023 0 "v" false false (by decide)

theorem contains_addClass_self (c : String) (cs : List String) :
    (addClass c cs).contains c = true := by
  simp only [List.elem_eq_mem, decide_eq_true_eq]
  exact mem_addClass_self c cs

theorem contains_removeClass_self (c : String) (cs : List String) :
    (removeClass c cs).contains c = false := by
  simp only [List.elem_eq_mem, decide_eq_false_iff_not]
  exact not_mem_removeClass c cs

/-- C7: a `v`/`V` keydown adds the `"pressed"` class to the corner logo iff
neither meta nor ctrl is held and the focused element is not an INPUT, not
a TEXTAREA and not content-editable; a `v`/`V` keyup removes it. -/
theorem keydown_v_pressed (d d2 : Dom) (logo logo2 : Element) (ae : FocusedElement)
    (key : String) (metaKey ctrlKey : Bool)
    (hlogo : d.cornerLogo = some logo) (hae : d.activeElement = some ae)
    (hp : logo.classes.contains "pressed" = false)
    (hlogo2 : d2.cornerLogo = some logo2)
    (hk : key = "v" ∨ key = "V") :
    cornerPressed (keydownHandler d key metaKey ctrlKey) =
      some (!metaKey && !ctrlKey && (ae.tagName != "INPUT"
        && ae.tagName != "TEXTAREA" && !ae.isContentEditable))
    ∧ cornerPressed (keyupHandler d2 key) = some false := by
  have hkl : toLowerStr key = "v" := by
    rcases hk with rfl | rfl <;> rfl
  simp only [List.elem_eq_mem, decide_eq_false_iff_not] at hp
  constructor
  · cases metaKey <;> cases ctrlKey <;>
      by_cases hin : ae.tagName = "INPUT" <;>
      by_cases htex : ae.tagName = "TEXTAREA" <;>
      cases hce : ae.isContentEditable <;>
      simp_all [keydownHandler, deref, cornerPressed, mem_addClass_self,
        pure, Except.pure, except_ok_bind]
  · simp [keyupHandler, hlogo2, hkl, cornerPressed, pure, Except.pure,
      not_mem_removeClass]

theorem keydown_v_pressed_witness :
    cornerPressed (keydownHandler { cornerLogo := some {}, activeElement := some {} }
        "v" false false) =
      some (!false && !false && ((FocusedElement.tagName {} != "INPUT")
        && (FocusedElement.tagName {} != "TEXTAREA") && !(FocusedElement.isContentEditable {})))
    ∧ cornerPressed (keyupHandler { cornerLogo := some {}, activeElement := some {} } "v") =
      some false :=
  keydown_v_pressed { cornerLogo := some {}, activeElement := some {} }
    { cornerLogo := some {}, activeElement := some {} } {} {} {} "v" false false
    rfl rfl (by decide) rfl (Or.inl rfl)

theorem updateActiveNav_idempotent_witness :
    updateActiveNav 0 10 10000 [⟨"a", 0, 200⟩] [⟨"#a", true⟩, ⟨"#b", true⟩] =
      updateActiveNav 0 10 10000 [⟨"a", 0, 200⟩] [⟨"#a", false⟩, ⟨"#b", false⟩]
    ∧ updateActiveNav 0 10 10000 [⟨"a", 0, 200⟩]
        (updateActiveNav 0 10 10000 [⟨"a", 0, 200⟩] [⟨"#a", true⟩, ⟨"#b", true⟩]) =
      updateActiveNav 0 10 10000 [⟨"a", 0, 200⟩] [⟨"#a", true⟩, ⟨"#b", true⟩] :=
  updateActiveNav_idempotent 0 10 10000 [⟨"a", 0, 200⟩]
    [⟨"#a", true⟩, ⟨"#b", true⟩] [⟨"#a", false⟩, ⟨"#b", false⟩] (by decide)

end Main
